import Mathlib

/-!
Verification of the `inotifywait` utility of the rust-utils repository
(`src/inotifywait/main.rs`) against its natural-language specification.

The Rust program is shallowly embedded: watch masks are `Nat` bit patterns
(the Linux inotify constants used by the `inotify` crate), the filesystem
and the OS notification facility are an explicit environment of oracles,
`process::exit` and panics are explicit outcomes, and the recursive
directory walk `add_watch` is given a fuel parameter (it recurses on paths
returned by the directory-listing oracle, which is not structurally
decreasing).
-/

namespace InotifyWait

/-! Watch-mask bit constants, as defined by the Linux inotify interface and
re-exported by the `inotify` crate (`WatchMask::ACCESS`, ...). -/

def ACCESS : Nat := 0x001
def MODIFY : Nat := 0x002
def ATTRIB : Nat := 0x004
def CLOSE_WRITE : Nat := 0x008
def CLOSE_NOWRITE : Nat := 0x010
def OPEN : Nat := 0x020
def MOVED_FROM : Nat := 0x040
def MOVED_TO : Nat := 0x080
def CREATE : Nat := 0x100
def DELETE : Nat := 0x200
def DELETE_SELF : Nat := 0x400
def MOVE_SELF : Nat := 0x800

/-- `WatchMask::CLOSE` is the union of the two close events. -/
def CLOSE : Nat := CLOSE_WRITE ||| CLOSE_NOWRITE

/-- `WatchMask::MOVE` is the union of the two move events. -/
def MOVE : Nat := MOVED_FROM ||| MOVED_TO

/-- The token table of `setup_flags` (main.rs lines 188-201): each
recognized event-name string and its mask; `none` for the wildcard arm
that prints "unknown event type" and exits. -/
def tokenMask : String → Option Nat
  | "access" => some ACCESS
  | "modify" => some MODIFY
  | "attrib" => some ATTRIB
  | "close_write" => some CLOSE_WRITE
  | "close_nowrite" => some CLOSE_NOWRITE
  | "close" => some CLOSE
  | "open" => some OPEN
  | "moved_to" => some MOVED_TO
  | "moved_from" => some MOVED_FROM
  | "move" => some MOVE
  | "moved_self" => some MOVE_SELF
  | "create" => some CREATE
  | "delete" => some DELETE
  | "delete_self" => some DELETE_SELF
  | _ => none

/-- The default mask returned by `setup_flags` when no `--event` filters
were given (main.rs lines 170-183), in the exact order of the source. -/
def defaultMask : Nat :=
  ACCESS ||| ATTRIB ||| CLOSE_NOWRITE ||| CLOSE_WRITE ||| CREATE ||| DELETE
    ||| DELETE_SELF ||| MODIFY ||| MOVED_FROM ||| MOVED_TO ||| MOVE_SELF ||| OPEN

/-- Message printed by the wildcard arm of `setup_flags` before
`process::exit(1)` (main.rs line 203). -/
def unknownEventMsg (tok : String) : String :=
  "unknown event type: " ++ tok

/-- The accumulation loop of `setup_flags` for a non-empty filter list
(main.rs lines 185-207): starting from `WatchMask::empty()`, OR in the mask
of each token in order; an unrecognized token aborts the process, modelled
as `Except.error` carrying the offending token. -/
def setupFlagsLoop : List String → Nat → Except String Nat
  | [], acc => .ok acc
  | t :: ts, acc =>
    match tokenMask t with
    | some m => setupFlagsLoop ts (acc ||| m)
    | none => .error t

/-- `InotifywaitCmd::setup_flags` (main.rs lines 167-211): the empty filter
list yields the default full mask, otherwise the masks of the tokens are
OR-combined; an unrecognized token is fatal. -/
def setupFlags (events : List String) : Except String Nat :=
  match events with
  | [] => .ok defaultMask
  | _ :: _ => setupFlagsLoop events 0

/-- Mask of a single recognized token (0 for unrecognized, used only under
an all-recognized hypothesis). -/
def maskOf (t : String) : Nat := (tokenMask t).getD 0

/-- Bitwise OR of the individual masks of a list of tokens. -/
def orMasks (l : List String) : Nat :=
  l.foldr (fun t acc => maskOf t ||| acc) 0

/-! The watch registry `wd_map : HashMap<WatchDescriptor, String>`, modelled
as an association list with HashMap insert/get semantics (watch descriptors
are the `Nat` keys). -/

/-- HashMap insert: replace the binding of an existing key, otherwise add. -/
def insertWd (m : List (Nat × String)) (wd : Nat) (path : String) :
    List (Nat × String) :=
  match m with
  | [] => [(wd, path)]
  | p :: rest => if p.1 = wd then (wd, path) :: rest else p :: insertWd rest wd path

/-- HashMap get: the binding of a key, if present. -/
def lookupWd (m : List (Nat × String)) (wd : Nat) : Option String :=
  match m with
  | [] => none
  | p :: rest => if p.1 = wd then some p.2 else lookupWd rest wd

/-- `self.wd_map.get(&event.wd).map_or("", |path| path)` (main.rs line 156):
total resolution of a watch descriptor to a path, empty when unknown. -/
def resolveWd (m : List (Nat × String)) (wd : Nat) : String :=
  (lookupWd m wd).getD ""

/-! The filesystem and OS notification facility, as an environment of
oracles, and the observable state of the command (registry and stdout). -/

/-- One entry produced by `fs::read_dir`: its full path (`entry.path()`),
its file name (`entry.file_name()`), and the result of `entry.file_type()`
(`Ok` carrying `is_dir`, or an error). -/
structure DirEntry where
  path : String
  name : String
  fileType : Except String Bool

/-- The external world: `fs::metadata` (Ok carrying `is_dir`, or an error),
`fs::read_dir` (a list of `Result<DirEntry>` items, or an error),
`Inotify::add_watch` (a watch descriptor, or an error) and `Inotify::init`. -/
structure Env where
  metadata : String → Except String Bool
  readDir : String → Except String (List (Except String DirEntry))
  watchResult : String → Except String Nat
  initResult : Except String Unit

/-- Observable state of `InotifywaitCmd` during setup: the registry
`wd_map` and the lines printed so far. -/
structure St where
  wdMap : List (Nat × String)
  output : List String
deriving DecidableEq

/-- Result of a call to `add_watch`: normal return, `process::exit(code)`,
or fuel exhaustion of the model (never reached on concrete finite trees
with enough fuel). -/
inductive AwResult where
  | cont (s : St)
  | exit (code : Nat) (s : St)
  | outOfFuel
deriving DecidableEq

/-- Message of main.rs lines 44-48 and 69-73 (`fs::metadata` failure on a
root path, and `entry.file_type()` failure on a child entry). -/
def metaErrMsg (filename err : String) : String :=
  "error when getting metadata of " ++ filename ++ ": " ++ err

/-- Message of main.rs lines 56-60 and 78-82 (`fs::read_dir` failure and a
failed `Result` item yielded by the directory iterator). -/
def readDirErrMsg (filename err : String) : String :=
  "error when reading directory " ++ filename ++ ": " ++ err

/-- Message of main.rs lines 112-116 (`Inotify::add_watch` failure). -/
def watchErrMsg (filename err : String) : String :=
  "failed to add inotify watch for " ++ filename ++ ": " ++ err

/-- Message of main.rs line 134 (`Inotify::init` failure). -/
def initErrMsg (err : String) : String :=
  "failed to initialize inotify: " ++ err

/-- The traversal of the entries of one directory inside `add_watch`
(main.rs lines 65-101): the filter's closure and the `for` loop, which the
lazy iterator interleaves per entry. A failed `Result` item exits the
process (line 83), a failed `entry.file_type()` exits the process
(line 74), a child directory is recursed into via `recurse`, and a
non-directory child is dropped by the filter. -/
def processEntries (recurse : String → St → AwResult) (filename : String) :
    List (Except String DirEntry) → St → AwResult
  | [], s => .cont s
  | e :: es, s =>
    match e with
    | .error err => .exit 1 ⟨s.wdMap, s.output ++ [readDirErrMsg filename err]⟩
    | .ok entry =>
      match entry.fileType with
      | .error err => .exit 1 ⟨s.wdMap, s.output ++ [metaErrMsg entry.name err]⟩
      | .ok isDir =>
        if isDir then
          match recurse entry.path s with
          | .cont s' => processEntries recurse filename es s'
          | r => r
        else processEntries recurse filename es s

/-- `InotifywaitCmd::add_watch` (main.rs lines 40-122), with fuel for the
recursion through the directory-listing oracle. A `fs::metadata` failure is
reported and the call returns (lines 41-51); for a directory, a
`fs::read_dir` failure is fatal (lines 53-63) and the children are
processed before the watch for `filename` itself is created (lines 65-101);
an `Inotify::add_watch` failure is reported and the call returns
(lines 111-118); on success the descriptor is inserted into `wd_map`
(lines 103-121). The `recursive` command-line flag is never consulted. -/
def addWatch (env : Env) (flags : Nat) : Nat → String → St → AwResult
  | 0, _, _ => .outOfFuel
  | fuel + 1, filename, s =>
    match env.metadata filename with
    | .error err => .cont ⟨s.wdMap, s.output ++ [metaErrMsg filename err]⟩
    | .ok isDir =>
      let afterDir : AwResult :=
        if isDir then
          match env.readDir filename with
          | .error err => .exit 1 ⟨s.wdMap, s.output ++ [readDirErrMsg filename err]⟩
          | .ok entries => processEntries (addWatch env flags fuel) filename entries s
        else .cont s
      match afterDir with
      | .cont s' =>
        match env.watchResult filename with
        | .ok wd => .cont ⟨insertWd s'.wdMap wd filename, s'.output⟩
        | .error err => .cont ⟨s'.wdMap, s'.output ++ [watchErrMsg filename err]⟩
      | r => r

/-! The setup phase of `InotifywaitCmd::run` (main.rs lines 124-143). -/

/-- The parsed command-line arguments (the `Args` struct, main.rs
lines 6-23). -/
structure RunArgs where
  events : List String
  monitor : Bool
  recursive : Bool
  files : List String

/-- `Vec::remove(i)`: remove and return the element at index `i`, shifting
the rest; `none` models the index-out-of-bounds panic. -/
def listRemove {α : Type} : List α → Nat → Option (α × List α)
  | [], _ => none
  | x :: xs, 0 => some (x, xs)
  | x :: xs, n + 1 => (listRemove xs n).map (fun p => (p.1, x :: p.2))

/-- How the setup phase ended. -/
inductive SetupOutcome where
  | reachedLoop
  | noFiles
  | exited (code : Nat)
  | panicked
  | outOfFuel
deriving DecidableEq

/-- The loop `for i in 0..self.arg.files.len()` of main.rs lines 138-141:
the range bound is computed once, each iteration removes the element at
index `i` from the shrinking `files` vector (a panic when `i` is out of
bounds) and passes it to `add_watch`. `remaining` counts the iterations
still to run, so the index `i` runs from `0` to the original length minus
one. -/
def filesLoop (env : Env) (flags : Nat) (fuel : Nat) :
    Nat → Nat → List String → St → SetupOutcome × St
  | _, 0, _, s => (.reachedLoop, s)
  | i, remaining + 1, files, s =>
    match listRemove files i with
    | none => (.panicked, s)
    | some (filename, files') =>
      match addWatch env flags fuel filename s with
      | .cont s' => filesLoop env flags fuel (i + 1) remaining files' s'
      | .exit c s' => (.exited c, s')
      | .outOfFuel => (.outOfFuel, s)

/-- Everything observable about the setup phase: how it ended, whether
`Inotify::init` was ever run, the final registry and the printed lines. -/
structure SetupResult where
  outcome : SetupOutcome
  inotifyStarted : Bool
  wdMap : List (Nat × String)
  output : List String
deriving DecidableEq

/-- The setup phase of `InotifywaitCmd::run` (main.rs lines 124-143):
`setup_flags` first (its unknown-token exit happens before anything else),
then the "Setting up watches." banner, the empty-input early return,
`Inotify::init`, the per-file loop, and the "Watches established."
banner. -/
def runSetup (env : Env) (args : RunArgs) (fuel : Nat) : SetupResult :=
  match setupFlags args.events with
  | .error tok => ⟨.exited 1, false, [], [unknownEventMsg tok]⟩
  | .ok flags =>
    let out0 := ["Setting up watches."]
    if args.files.length = 0 then
      ⟨.noFiles, false, [], out0 ++ ["No files specified to watch!"]⟩
    else
      match env.initResult with
      | .error err => ⟨.exited 1, false, [], out0 ++ [initErrMsg err]⟩
      | .ok _ =>
        let r := filesLoop env flags fuel 0 args.files.length args.files ⟨[], out0⟩
        match r.1 with
        | .reachedLoop => ⟨.reachedLoop, true, r.2.wdMap, r.2.output ++ ["Watches established."]⟩
        | o => ⟨o, true, r.2.wdMap, r.2.output⟩

/-! The event loop of `InotifywaitCmd::run` (main.rs lines 144-164). -/

/-- One raw inotify event as read from the channel: its watch descriptor,
its mask bits, and the optional child name (`None`, or invalid UTF-8
collapsing to the empty string, are both modelled by `Option String`). -/
structure InEvent where
  wd : Nat
  mask : Nat
  name : Option String

/-- The bit names used by the `Debug` rendering of an event mask. -/
def maskFlagNames : List (Nat × String) :=
  [(ACCESS, "ACCESS"), (MODIFY, "MODIFY"), (ATTRIB, "ATTRIB"),
   (CLOSE_WRITE, "CLOSE_WRITE"), (CLOSE_NOWRITE, "CLOSE_NOWRITE"),
   (OPEN, "OPEN"), (MOVED_FROM, "MOVED_FROM"), (MOVED_TO, "MOVED_TO"),
   (CREATE, "CREATE"), (DELETE, "DELETE"), (DELETE_SELF, "DELETE_SELF"),
   (MOVE_SELF, "MOVE_SELF")]

/-- The `{:?}` rendering of the event mask: the names of the set bits
joined by " | " (the bitflags `Debug` format). -/
def maskDebug (mask : Nat) : String :=
  String.intercalate " | "
    ((maskFlagNames.filter (fun p => mask &&& p.1 == p.1)).map (fun p => p.2))

/-- The line printed for one event (main.rs lines 153-159):
`"{}\t{:?} {}"` with the resolved path, the mask rendering, and the child
name defaulting to the empty string. -/
def eventLine (m : List (Nat × String)) (e : InEvent) : String :=
  resolveWd m e.wd ++ "\t" ++ maskDebug e.mask ++ " " ++ e.name.getD ""

/-- The inner `for event in events` loop over one batch (main.rs
lines 152-163): print one line per event in order; after each printed event
`if !monitor { break 'outer }`. Returns the lines emitted from this batch
and whether the outer loop was terminated. -/
def processBatch (m : List (Nat × String)) (monitor : Bool) :
    List InEvent → List String × Bool
  | [] => ([], false)
  | e :: es =>
    if monitor then
      let r := processBatch m monitor es
      (eventLine m e :: r.1, r.2)
    else ([eventLine m e], true)

/-- The outer `'outer: loop` (main.rs lines 145-164) run over a finite
prefix of the batch stream: each iteration blocks for one batch and
processes it; the registry is never mutated here. Returns all emitted lines
and whether the loop was terminated by the one-shot policy (`false` means
it is still blocking for the next batch when the modelled stream ends). -/
def eventLoop (m : List (Nat × String)) (monitor : Bool) :
    List (List InEvent) → List String × Bool
  | [] => ([], false)
  | b :: bs =>
    let r := processBatch m monitor b
    if r.2 then (r.1, true)
    else
      let r2 := eventLoop m monitor bs
      (r.1 ++ r2.1, r2.2)

/-! Concrete environments used to evaluate the model on specific
filesystem shapes. -/

/-- A root directory `root` containing a single subdirectory `root/a`;
every oracle succeeds. -/
def envC1 : Env where
  metadata := fun p =>
    if p = "root" then .ok true
    else if p = "root/a" then .ok true
    else .error "ENOENT"
  readDir := fun p =>
    if p = "root" then .ok [.ok ⟨"root/a", "a", .ok true⟩]
    else if p = "root/a" then .ok []
    else .error "ENOENT"
  watchResult := fun p =>
    if p = "root" then .ok 1
    else if p = "root/a" then .ok 2
    else .error "ENOENT"
  initResult := .ok ()

/-- Arguments with the recursive flag NOT requested, watching `root`. -/
def argsC1 : RunArgs := ⟨[], false, false, ["root"]⟩

/-- Two ordinary files `f1` and `f2`; every oracle succeeds. -/
def envC2 : Env where
  metadata := fun p =>
    if p = "f1" then .ok false
    else if p = "f2" then .ok false
    else .error "ENOENT"
  readDir := fun _ => .error "ENOTDIR"
  watchResult := fun p =>
    if p = "f1" then .ok 1
    else if p = "f2" then .ok 2
    else .error "ENOENT"
  initResult := .ok ()

/-- Arguments watching the two files `f1` and `f2`. -/
def argsC2 : RunArgs := ⟨[], false, false, ["f1", "f2"]⟩

/-- The directory tree `root/(a/, b/file.txt, c/d/)` of the spec's §8
scenario: `root/a`, `root/b`, `root/c`, `root/c/d` are directories,
`root/b/file.txt` is an ordinary file; every oracle succeeds. -/
def envC9 : Env where
  metadata := fun p =>
    if p = "root" then .ok true
    else if p = "root/a" then .ok true
    else if p = "root/b" then .ok true
    else if p = "root/c" then .ok true
    else if p = "root/c/d" then .ok true
    else if p = "root/b/file.txt" then .ok false
    else .error "ENOENT"
  readDir := fun p =>
    if p = "root" then
      .ok [.ok ⟨"root/a", "a", .ok true⟩, .ok ⟨"root/b", "b", .ok true⟩,
           .ok ⟨"root/c", "c", .ok true⟩]
    else if p = "root/a" then .ok []
    else if p = "root/b" then .ok [.ok ⟨"root/b/file.txt", "file.txt", .ok false⟩]
    else if p = "root/c" then .ok [.ok ⟨"root/c/d", "d", .ok true⟩]
    else if p = "root/c/d" then .ok []
    else .error "ENOENT"
  watchResult := fun p =>
    if p = "root" then .ok 1
    else if p = "root/a" then .ok 2
    else if p = "root/b" then .ok 3
    else if p = "root/c" then .ok 4
    else if p = "root/c/d" then .ok 5
    else .error "ENOENT"
  initResult := .ok ()

/-- Arguments with the recursive flag requested, watching `root`. -/
def argsC9 : RunArgs := ⟨[], false, true, ["root"]⟩

/-- Witness environment for the listing-vs-watch-creation asymmetry: `p` is
a directory that cannot be listed, `q` is a file whose watch creation
fails. -/
def envW4 : Env where
  metadata := fun x =>
    if x = "p" then .ok true else if x = "q" then .ok false else .error "ENOENT"
  readDir := fun _ => .error "EACCES"
  watchResult := fun _ => .error "ENOSPC"
  initResult := .ok ()

/-- Witness environment for the child file-type failure: `p` is a directory
whose single child entry fails `file_type()`, and `q` cannot be stat'd. -/
def envW10 : Env where
  metadata := fun x =>
    if x = "p" then .ok true else .error "ENOENT"
  readDir := fun x =>
    if x = "p" then .ok [.ok ⟨"p/x", "x", .error "EIO"⟩] else .error "ENOENT"
  watchResult := fun _ => .ok 1
  initResult := .ok ()

/-- Witness environment for the unknown-token claim: every oracle fails, so
any watch activity would be visible. -/
def envW5 : Env where
  metadata := fun _ => .error "ENOENT"
  readDir := fun _ => .error "ENOENT"
  watchResult := fun _ => .error "ENOENT"
  initResult := .ok ()

/-- Arguments carrying an unrecognized event filter token. -/
def argsW5 : RunArgs := ⟨["bogus"], false, false, ["f"]⟩

/-! Helper lemmas about mask composition and the translator. -/

theorem lor_left_comm (a b c : Nat) : a ||| (b ||| c) = b ||| (a ||| c) := by
  rw [← Nat.lor_assoc, Nat.lor_comm a b, Nat.lor_assoc]

theorem orMasks_cons (t : String) (l : List String) :
    orMasks (t :: l) = maskOf t ||| orMasks l := rfl

theorem maskOf_lor_orMasks_of_mem (t : String) (l : List String) (h : t ∈ l) :
    maskOf t ||| orMasks l = orMasks l := by
  induction l with
  | nil => cases h
  | cons u ts ih =>
    rcases List.mem_cons.mp h with h | h
    · subst h
      rw [orMasks_cons, ← Nat.lor_assoc, Nat.or_self]
    · rw [orMasks_cons, lor_left_comm, ih h]

theorem orMasks_lor_of_subset (l1 l2 : List String) (h : ∀ t ∈ l1, t ∈ l2) :
    orMasks l1 ||| orMasks l2 = orMasks l2 := by
  induction l1 with
  | nil => exact Nat.zero_or _
  | cons u ts ih =>
    rw [orMasks_cons, Nat.lor_assoc, ih (fun t ht => h t (List.mem_cons_of_mem u ht)),
      maskOf_lor_orMasks_of_mem u l2 (h u (List.mem_cons_self u ts))]

theorem orMasks_congr_mem (l l' : List String) (h : ∀ t, t ∈ l ↔ t ∈ l') :
    orMasks l = orMasks l' := by
  have h1 := orMasks_lor_of_subset l l' (fun t ht => (h t).mp ht)
  have h2 := orMasks_lor_of_subset l' l (fun t ht => (h t).mpr ht)
  calc orMasks l = orMasks l' ||| orMasks l := h2.symm
    _ = orMasks l ||| orMasks l' := Nat.lor_comm _ _
    _ = orMasks l' := h1

theorem setupFlagsLoop_ok (l : List String)
    (h : ∀ t ∈ l, (tokenMask t).isSome = true) (acc : Nat) :
    setupFlagsLoop l acc = .ok (acc ||| orMasks l) := by
  induction l generalizing acc with
  | nil => simp [setupFlagsLoop, orMasks, Nat.or_zero]
  | cons t ts ih =>
    obtain ⟨m, hm⟩ := Option.isSome_iff_exists.mp (h t (List.mem_cons_self t ts))
    rw [setupFlagsLoop, hm]
    show setupFlagsLoop ts (acc ||| m) = _
    rw [ih (fun u hu => h u (List.mem_cons_of_mem t hu)) (acc ||| m), orMasks_cons,
      Nat.lor_assoc]
    have hmt : maskOf t = m := by rw [maskOf, hm]; rfl
    rw [hmt]

theorem setupFlagsLoop_error (l : List String) (t : String)
    (ht : t ∈ l) (hbad : tokenMask t = none) (acc : Nat) :
    ∃ u, tokenMask u = none ∧ setupFlagsLoop l acc = .error u := by
  induction l generalizing acc with
  | nil => cases ht
  | cons v ts ih =>
    cases hv : tokenMask v with
    | none => exact ⟨v, hv, by rw [setupFlagsLoop, hv]⟩
    | some m =>
      have hts : t ∈ ts := by
        rcases List.mem_cons.mp ht with h | h
        · subst h; rw [hv] at hbad; cases hbad
        · exact h
      obtain ⟨u, hu, hloop⟩ := ih hts (acc ||| m)
      refine ⟨u, hu, ?_⟩
      rw [setupFlagsLoop, hv]
      exact hloop

theorem setupFlags_error (l : List String) (t : String)
    (ht : t ∈ l) (hbad : tokenMask t = none) :
    ∃ u, tokenMask u = none ∧ setupFlags l = .error u := by
  cases l with
  | nil => cases ht
  | cons a as => exact setupFlagsLoop_error (a :: as) t ht hbad 0

theorem processBatch_monitor (m : List (Nat × String)) (l : List InEvent) :
    processBatch m true l = (l.map (eventLine m), false) := by
  induction l with
  | nil => rfl
  | cons e es ih => rw [processBatch, ih]; rfl

/-! The claims. -/

/-- Claim C1. The claim states that the enumerator recurses into
subdirectories only when the recursive flag is requested, and that without
it only the root path is watched and no child is traversed. The code never
consults `Args::recursive`: on the tree where the directory `root` has the
single subdirectory `root/a`, with the recursive flag NOT requested, the
child `root/a` is nevertheless traversed and registered in the watch map
before `root` itself. -/
theorem C1_recursive_flag_is_ignored :
    argsC1.recursive = false ∧
    (runSetup envC1 argsC1 5).wdMap = [(2, "root/a"), (1, "root")] ∧
    "root/a" ∈ (runSetup envC1 argsC1 5).wdMap.map (fun p => p.2) := by
  decide

/-- Claim C2. The claim states that with two or more input paths every
input is passed to the enumerator exactly once and the run proceeds to the
watching phase. The code iterates `for i in 0..files.len()` while calling
`files.remove(i)` on the shrinking vector: with the two stat-able files
`f1` and `f2`, only `f1` is ever enumerated and watched, and the run then
panics on the out-of-bounds `remove(1)` instead of reaching the watching
phase. -/
theorem C2_second_path_dropped_then_panic :
    (runSetup envC2 argsC2 5).outcome = SetupOutcome.panicked ∧
    (runSetup envC2 argsC2 5).wdMap = [(1, "f1")] := by
  decide

/-- Claim C3. In one-shot mode the loop emits exactly one line (for the
first event of the batch) and terminates even though the batch holds more
events; in monitor mode every event of the batch is emitted in order with
no reordering or deduplication, and the loop goes on to block for the next
batch. -/
theorem C3_oneshot_first_event_monitor_all_events (m : List (Nat × String))
    (e1 e2 : InEvent) (es : List InEvent) (bs : List (List InEvent)) :
    processBatch m false (e1 :: e2 :: es) = ([eventLine m e1], true) ∧
    eventLoop m false ((e1 :: e2 :: es) :: bs) = ([eventLine m e1], true) ∧
    processBatch m true (e1 :: e2 :: es) = ((e1 :: e2 :: es).map (eventLine m), false) ∧
    eventLoop m true ((e1 :: e2 :: es) :: bs) =
      ((e1 :: e2 :: es).map (eventLine m) ++ (eventLoop m true bs).1,
        (eventLoop m true bs).2) := by
  refine ⟨rfl, rfl, processBatch_monitor m _, ?_⟩
  rw [eventLoop, processBatch_monitor]
  simp

/-- Claim C4. Failure handling during enumeration is asymmetric: a failed
directory listing terminates the whole run with exit code 1 (whatever was
already registered stays in the registry but the run aborts), while a
failed watch creation for one path is only reported and skipped, the
enumeration returning normally with the registry unchanged. -/
theorem C4_listing_fatal_watch_creation_nonfatal (env : Env) (flags fuel : Nat)
    (p q err1 err2 : String) (s : St)
    (hp : env.metadata p = .ok true) (hread : env.readDir p = .error err1)
    (hq : env.metadata q = .ok false) (hw : env.watchResult q = .error err2) :
    addWatch env flags (fuel + 1) p s =
      .exit 1 ⟨s.wdMap, s.output ++ [readDirErrMsg p err1]⟩ ∧
    addWatch env flags (fuel + 1) q s =
      .cont ⟨s.wdMap, s.output ++ [watchErrMsg q err2]⟩ := by
  constructor
  · rw [addWatch, hp]
    simp only [hread, if_true]
  · rw [addWatch, hq]
    simp [hw]

theorem C4_witness :
    envW4.metadata "p" = .ok true ∧ envW4.readDir "p" = .error "EACCES" ∧
    envW4.metadata "q" = .ok false ∧ envW4.watchResult "q" = .error "ENOSPC" ∧
    (addWatch envW4 0 1 "p" ⟨[(9, "z")], []⟩ =
        .exit 1 ⟨[(9, "z")], [readDirErrMsg "p" "EACCES"]⟩ ∧
      addWatch envW4 0 1 "q" ⟨[(9, "z")], []⟩ =
        .cont ⟨[(9, "z")], [watchErrMsg "q" "ENOSPC"]⟩) :=
  ⟨rfl, rfl, rfl, rfl,
    C4_listing_fatal_watch_creation_nonfatal envW4 0 0 "p" "q" "EACCES" "ENOSPC"
      ⟨[(9, "z")], []⟩ rfl rfl rfl rfl⟩

/-- Claim C5. Any unrecognized filter token in a non-empty filter list makes
the run terminate with exit code 1, printing a message naming an offending
(unrecognized) token, before the notification facility is initialized and
with the watch registry still empty. -/
theorem C5_unknown_token_fatal_before_any_watch (env : Env) (args : RunArgs)
    (fuel : Nat) (t : String) (hmem : t ∈ args.events) (hbad : tokenMask t = none) :
    ∃ u, tokenMask u = none ∧
      runSetup env args fuel =
        ⟨SetupOutcome.exited 1, false, [], [unknownEventMsg u]⟩ := by
  obtain ⟨u, hu, hsf⟩ := setupFlags_error args.events t hmem hbad
  exact ⟨u, hu, by rw [runSetup, hsf]⟩

theorem C5_witness :
    "bogus" ∈ argsW5.events ∧ tokenMask "bogus" = none ∧
    ∃ u, tokenMask u = none ∧
      runSetup envW5 argsW5 1 =
        ⟨SetupOutcome.exited 1, false, [], [unknownEventMsg u]⟩ :=
  ⟨by decide, rfl,
    C5_unknown_token_fatal_before_any_watch envW5 argsW5 1 "bogus" (by decide) rfl⟩

/-- Claim C6. Resolving a watch handle during decoding is total: when the
handle of an event is absent from the registry the path decodes to the
empty string, the event line is still emitted (with the empty path in
front of the tab), and in monitor mode the loop simply continues with the
rest of the batch. -/
theorem C6_unknown_handle_decodes_empty (m : List (Nat × String)) (e : InEvent)
    (es : List InEvent) (h : lookupWd m e.wd = none) :
    resolveWd m e.wd = "" ∧
    eventLine m e = "" ++ "\t" ++ maskDebug e.mask ++ " " ++ e.name.getD "" ∧
    processBatch m true (e :: es) =
      (eventLine m e :: (processBatch m true es).1, (processBatch m true es).2) := by
  refine ⟨?_, ?_, rfl⟩
  · rw [resolveWd, h]; rfl
  · rw [eventLine, resolveWd, h]; rfl

theorem C6_witness :
    lookupWd [(1, "root")] 7 = none ∧
    (resolveWd [(1, "root")] 7 = "" ∧
      eventLine [(1, "root")] ⟨7, 0x100, some "x"⟩ =
        "" ++ "\t" ++ maskDebug 0x100 ++ " " ++ (some "x").getD "" ∧
      processBatch [(1, "root")] true [⟨7, 0x100, some "x"⟩] =
        (eventLine [(1, "root")] ⟨7, 0x100, some "x"⟩ ::
            (processBatch [(1, "root")] true []).1,
          (processBatch [(1, "root")] true []).2)) :=
  ⟨rfl, C6_unknown_handle_decodes_empty [(1, "root")] ⟨7, 0x100, some "x"⟩ [] rfl⟩

/-- Claim C7. For the empty filter list the translator returns exactly the
bitwise OR of the default full set, spelled in the claim's order: access,
attrib, close_write, close_nowrite, create, delete, delete_self, modify,
moved_from, moved_to, move_self, open (numerically 0xfff). -/
theorem C7_empty_filter_yields_default_mask :
    setupFlags [] =
      .ok ([ACCESS, ATTRIB, CLOSE_WRITE, CLOSE_NOWRITE, CREATE, DELETE, DELETE_SELF,
        MODIFY, MOVED_FROM, MOVED_TO, MOVE_SELF, OPEN].foldr (fun a b => a ||| b) 0) ∧
    setupFlags [] = .ok 0xfff := ⟨rfl, rfl⟩

/-- Claim C8. For a non-empty filter list of recognized tokens the
translator succeeds with the bitwise OR of the individual token masks, and
any other non-empty list with the same set of member tokens (any order, any
repetition) translates to the same result. -/
theorem C8_mask_or_and_order_independence (l l' : List String)
    (hrec : ∀ t ∈ l, (tokenMask t).isSome = true)
    (hne : l ≠ []) (hne' : l' ≠ [])
    (hmem : ∀ t, t ∈ l ↔ t ∈ l') :
    setupFlags l = .ok (orMasks l) ∧ setupFlags l = setupFlags l' := by
  have hrec' : ∀ t ∈ l', (tokenMask t).isSome = true :=
    fun t ht => hrec t ((hmem t).mpr ht)
  have hok : ∀ (l0 : List String), l0 ≠ [] →
      (∀ t ∈ l0, (tokenMask t).isSome = true) →
      setupFlags l0 = .ok (orMasks l0) := by
    intro l0 hne0 hrec0
    cases l0 with
    | nil => cases hne0 rfl
    | cons a as =>
      show setupFlagsLoop (a :: as) 0 = _
      rw [setupFlagsLoop_ok (a :: as) hrec0 0, Nat.zero_or]
  refine ⟨hok l hne hrec, ?_⟩
  rw [hok l hne hrec, hok l' hne' hrec', orMasks_congr_mem l l' hmem]

theorem C8_witness :
    (∀ t ∈ ["create", "modify"], (tokenMask t).isSome = true) ∧
    (["create", "modify"] : List String) ≠ [] ∧
    (["modify", "create", "create"] : List String) ≠ [] ∧
    (∀ t, t ∈ ["create", "modify"] ↔ t ∈ ["modify", "create", "create"]) ∧
    (setupFlags ["create", "modify"] = .ok (orMasks ["create", "modify"]) ∧
      setupFlags ["create", "modify"] = setupFlags ["modify", "create", "create"]) := by
  have hmem : ∀ t : String,
      t ∈ (["create", "modify"] : List String) ↔
        t ∈ (["modify", "create", "create"] : List String) := by
    intro t
    simp only [List.mem_cons, List.not_mem_nil, or_false]
    tauto
  exact ⟨by decide, by decide, by decide, hmem,
    C8_mask_or_and_order_independence ["create", "modify"] ["modify", "create", "create"]
      (by decide) (by decide) (by decide) hmem⟩

/-- Claim C9 counterexample. The claim states that after recursive
enumeration of `root/(a/, b/file.txt, c/d/)` the registry holds entries
exactly for `root`, `root/a`, `root/c` and `root/c/d`. But
`root/b` — the directory containing `file.txt` — is a directory too, so the
code also registers it: `root/b` is in the registry and outside the
claimed set. -/
theorem C9_counterexample :
    "root/b" ∈ (runSetup envC9 argsC9 5).wdMap.map (fun p => p.2) ∧
    "root/b" ∉ ["root", "root/a", "root/c", "root/c/d"] := by
  decide

/-- Claim C9 as amended. After recursive enumeration of
`root/(a/, b/file.txt, c/d/)` with all operations succeeding, the registry
contains watch entries exactly for the directories `root`, `root/a`,
`root/b`, `root/c`, `root/c/d` (in depth-first post-order of registration),
and no distinct entry for the non-directory leaf `root/b/file.txt`. -/
theorem C9_amended_registry_contents :
    (runSetup envC9 argsC9 5).wdMap.map (fun p => p.2) =
      ["root/a", "root/b", "root/c/d", "root/c", "root"] ∧
    "root/b/file.txt" ∉ (runSetup envC9 argsC9 5).wdMap.map (fun p => p.2) := by
  decide

/-- Claim C10. During recursion into a directory, a child entry whose file
type cannot be determined terminates the whole run with exit code 1,
whereas a root path that cannot be stat'd is only reported and skipped,
`add_watch` returning normally with the registry unchanged. -/
theorem C10_child_file_type_error_fatal (env : Env) (flags fuel : Nat)
    (p cpath cname cerr q qerr : String) (s : St)
    (hp : env.metadata p = .ok true)
    (hread : env.readDir p = .ok [.ok ⟨cpath, cname, .error cerr⟩])
    (hq : env.metadata q = .error qerr) :
    addWatch env flags (fuel + 1) p s =
      .exit 1 ⟨s.wdMap, s.output ++ [metaErrMsg cname cerr]⟩ ∧
    addWatch env flags (fuel + 1) q s =
      .cont ⟨s.wdMap, s.output ++ [metaErrMsg q qerr]⟩ := by
  constructor
  · rw [addWatch, hp]
    simp only [hread, if_true]
    rfl
  · rw [addWatch, hq]

theorem C10_witness :
    envW10.metadata "p" = .ok true ∧
    envW10.readDir "p" = .ok [.ok ⟨"p/x", "x", .error "EIO"⟩] ∧
    envW10.metadata "q" = .error "ENOENT" ∧
    (addWatch envW10 0 1 "p" ⟨[], []⟩ = .exit 1 ⟨[], [metaErrMsg "x" "EIO"]⟩ ∧
      addWatch envW10 0 1 "q" ⟨[], []⟩ = .cont ⟨[], [metaErrMsg "q" "ENOENT"]⟩) :=
  ⟨rfl, rfl, rfl,
    C10_child_file_type_error_fatal envW10 0 0 "p" "p/x" "x" "EIO" "q" "ENOENT"
      ⟨[], []⟩ rfl rfl rfl⟩

end InotifyWait
